import Mathlib

/-!
Verification of the RFC 3389 comfort-noise decoder
(`libavcodec/cngdec.c`, libav 9.8).

Shallow embedding conventions:
* C `float`/`double` arithmetic is idealised as exact arithmetic over `ℚ`.
* C `int` values become `ℤ`; C's truncating conversions and integer
  division are modelled explicitly (`ctrunc`, `cdiv2`).
* The libm calls `pow(10, -b/10.0)` and `sqrt` are abstracted as fields
  of an environment `CEnv`; every structural theorem is quantified over
  the environment.
* The `AVLFG` pseudo-random generator lives in `libavutil/lfg.c`, which
  is not among the analysed sources; following the spec it is modelled
  as a fixed deterministic stream `rng : ℕ → ℕ` of draws, the state
  reduced to a draw counter (`lfgIndex`).
* `ff_get_buffer` (the output sample-buffer acquisition) can fail; its
  outcome is an explicit boolean input `bufOk` of a decode call.
-/

namespace CNG

set_option maxRecDepth 8000

/-- `p->order = 12`, set in `cng_decode_init`. -/
def cngOrder : ℕ := 12

/-- `avctx->frame_size = 640`, set in `cng_decode_init`. -/
def cngFrameSize : ℕ := 640

/-- Truncation toward zero: the effect of C's `double`→`int` and
`float`→`int16_t` conversions. -/
def ctrunc (q : ℚ) : ℤ := if q < 0 then -⌊-q⌋ else ⌊q⌋

/-- C `int` division by 2 (truncation toward zero), as in
`p->energy / 2 + p->target_energy / 2`. -/
def cdiv2 (z : ℤ) : ℤ := if z < 0 then -((-z) / 2) else z / 2

/-- External functions used by `cng_decode_frame`, abstracted.
`pow10 b` stands for the value libm's `pow(10, -(double)b / 10.0)`
returns at byte value `b`; `sqrtq x` for `sqrt(x)`; `rng` for the
stream of `unsigned int` values produced by successive `av_lfg_get`
calls on the `AVLFG` generator seeded with `0` in `cng_decode_init`.
Modelled from the spec: `libavutil/lfg.c` is not among the analysed
sources; the spec requires only a deterministic reproducible sequence
seeded once at initial setup, which this stream represents. -/
structure CEnv where
  pow10 : ℕ → ℚ
  sqrtq : ℚ → ℚ
  rng : ℕ → ℕ

/-- `CNGContext` from cngdec.c.  Float buffers become rational-valued
functions/lists; the `AVLFG lfg` field becomes the number of draws made
so far (`lfgIndex`); `inited` is the `int inited` flag. -/
structure CNGContext where
  refl_coef : ℕ → ℚ
  target_refl_coef : ℕ → ℚ
  lpc_coef : ℕ → ℚ
  energy : ℤ
  target_energy : ℤ
  inited : Bool
  filter_out : List ℚ
  excitation : List ℚ
  lfgIndex : ℕ

/-- `cng_decode_init`: all buffers are allocated zero-filled
(`av_mallocz`), the scalar fields of the zero-initialised private
context are 0/false, and the generator is seeded with 0 (draw counter
starts at 0). -/
def cng_decode_init : CNGContext where
  refl_coef := fun _ => 0
  target_refl_coef := fun _ => 0
  lpc_coef := fun _ => 0
  energy := 0
  target_energy := 0
  inited := false
  filter_out := List.replicate (cngFrameSize + cngOrder) 0
  excitation := List.replicate cngFrameSize 0
  lfgIndex := 0

/-- The `if (avpkt->size)` block of `cng_decode_frame`: byte 0 sets
`target_energy = (int)(1081109975 * pow(10, -data[0]/10.0) * 0.75)`;
the coefficient array is `memset` to zero and its first
`FFMIN(size-1, order)` entries set to `(data[1+i] - 127) / 128.0`.
Entries at indices `≥ order` do not exist in the C buffer and are left
untouched in the model. -/
def cngParsePacket (env : CEnv) (p : CNGContext) : List (Fin 256) → CNGContext
  | [] => p
  | b0 :: rest =>
    { p with
      target_energy := ctrunc (1081109975 * env.pow10 b0.val * 0.75)
      target_refl_coef := fun i =>
        if i < min rest.length cngOrder then (((rest.getD i 0).val : ℚ) - 127) / 128
        else if i < cngOrder then 0
        else p.target_refl_coef i }

/-- The smoothing/snap block of `cng_decode_frame`: when `inited`,
`energy = energy/2 + target_energy/2` (C integer division) and
`refl_coef[i] = 0.6*refl_coef[i] + 0.4*target_refl_coef[i]`; otherwise
`energy = target_energy`, `refl_coef` is `memcpy`-ed from
`target_refl_coef`, and `inited` is set. -/
def cngSmooth (p : CNGContext) : CNGContext :=
  if p.inited then
    { p with
      energy := cdiv2 p.energy + cdiv2 p.target_energy
      refl_coef := fun i =>
        if i < cngOrder then 0.6 * p.refl_coef i + 0.4 * p.target_refl_coef i
        else p.refl_coef i }
  else
    { p with
      energy := p.target_energy
      refl_coef := fun i => if i < cngOrder then p.target_refl_coef i else p.refl_coef i
      inited := true }

/-- One pass of the `for (m = 0; m < order; m++)` loop of
`make_lpc_coefs`, iterated: iteration `m` writes `next[m] = refl[m]`,
then `next[i] = cur[i] + refl[m] * cur[m - i - 1]` for `i < m`, and
swaps the two buffers.  The first component is the buffer `cur` after
the given number of iterations, the second the buffer `next`. -/
def stepUpLoop (refl : ℕ → ℚ) : ℕ → (ℕ → ℚ) → (ℕ → ℚ) → (ℕ → ℚ) × (ℕ → ℚ)
  | 0, cur, nxt => (cur, nxt)
  | m + 1, cur, nxt =>
    let prev := stepUpLoop refl m cur nxt
    (fun i =>
        if i = m then refl m
        else if i < m then prev.1 i + refl m * prev.1 (m - 1 - i)
        else prev.2 i,
     prev.1)

/-- `make_lpc_coefs(lpc, refl, order)`: runs the ping-pong step-up loop
starting from `cur = lpc` (whose entries are the stale coefficients of
the previous frame) and `next = buf` (an uninitialised stack buffer,
passed here as an arbitrary `buf0`); after the loop the final `cur`
buffer holds the result, which is copied to `lpc` when the loop ended
with `cur != lpc` (functionally the identity, so the model returns the
final `cur` directly). -/
def make_lpc_coefs (refl : ℕ → ℚ) (order : ℕ) (lpc0 buf0 : ℕ → ℚ) : ℕ → ℚ :=
  (stepUpLoop refl order lpc0 buf0).1

/-- Modelled from the spec (§4.4): the canonical step-up (Levinson)
recursion producing the order-`m` direct-form coefficients from the
reflection coefficients: the order-`m+1` solution has trailing
coefficient `refl m` and earlier taps
`a⁽ᵐ⁺¹⁾[i] = a⁽ᵐ⁾[i] + refl m * a⁽ᵐ⁾[m-1-i]`. -/
def levinson (refl : ℕ → ℚ) : ℕ → ℕ → ℚ
  | 0, _ => 0
  | m + 1, i =>
    if i = m then refl m
    else if i < m then levinson refl m i + refl m * levinson refl m (m - 1 - i)
    else 0

/-- Modelled from the spec (§4.6): `ff_celp_lp_synthesis_filterf`
(`celp_filters.c` is not among the analysed sources).  An
order-`order` all-pole synthesis filter whose initial state is the
`order` history samples at the front of the output buffer; it consumes
the excitation samples and appends the produced samples after the
history region.  Returns history ++ produced samples. -/
def synthFilter (order : ℕ) (lpc : ℕ → ℚ) (hist exc : List ℚ) : List ℚ :=
  exc.foldl
    (fun acc e =>
      acc ++ [e - (((List.range order).map fun k => lpc k * acc.getD (acc.length - 1 - k) 0).sum)])
    hist

/-- The state reached after the packet-parsing and smoothing blocks of
`cng_decode_frame`. -/
def cngSmoothed (env : CEnv) (p0 : CNGContext) (payload : List (Fin 256)) : CNGContext :=
  cngSmooth (cngParsePacket env p0 payload)

/-- The `lpc_coef` buffer after the `make_lpc_coefs(p->lpc_coef,
p->refl_coef, p->order)` call of `cng_decode_frame`: the first `order`
entries are the loop's result (the stale `lpc_coef` serving as the
initial `cur` buffer and the uninitialised stack buffer taken as zeros
— by `C3_make_lpc_coefs_levinson` the result depends on neither),
entries beyond `order` do not exist in the C buffer and stay put. -/
def cngLpc (env : CEnv) (p0 : CNGContext) (payload : List (Fin 256)) : ℕ → ℚ :=
  fun i =>
    if i < cngOrder then
      make_lpc_coefs (cngSmoothed env p0 payload).refl_coef cngOrder
        (cngSmoothed env p0 payload).lpc_coef (fun _ => 0) i
    else (cngSmoothed env p0 payload).lpc_coef i

/-- The local `scaling` of `cng_decode_frame`:
`sqrt(e * p->energy / 1081109975)` with
`e = Π (1.0 - refl_coef[i]*refl_coef[i])` over the freshly smoothed
coefficients. -/
def cngScaling (env : CEnv) (p0 : CNGContext) (payload : List (Fin 256)) : ℚ :=
  env.sqrtq
    ((((List.range cngOrder).map fun i =>
        1 - (cngSmoothed env p0 payload).refl_coef i
          * (cngSmoothed env p0 payload).refl_coef i).prod)
      * ((cngSmoothed env p0 payload).energy : ℚ) / 1081109975)

/-- The excitation buffer written by `cng_decode_frame`: sample `i` is
`scaling * ((av_lfg_get(&p->lfg) & 0xffff) - 0x8000)`, the draws
advancing the generator. -/
def cngExc (env : CEnv) (p0 : CNGContext) (payload : List (Fin 256)) : List ℚ :=
  (List.range cngFrameSize).map fun i =>
    cngScaling env p0 payload
      * (((env.rng ((cngSmoothed env p0 payload).lfgIndex + i) % 65536 : ℕ) : ℚ) - 32768)

/-- `cng_decode_frame` up to (and not including) the `ff_get_buffer`
call: packet parsing, smoothing/snap, `make_lpc_coefs`, the excitation
generation, and the synthesis filter writing after the history region
of `filter_out`. -/
def cng_frame_update (env : CEnv) (p0 : CNGContext) (payload : List (Fin 256)) : CNGContext :=
  { cngSmoothed env p0 payload with
    lpc_coef := cngLpc env p0 payload
    excitation := cngExc env p0 payload
    lfgIndex := (cngSmoothed env p0 payload).lfgIndex + cngFrameSize
    filter_out := synthFilter cngOrder (cngLpc env p0 payload)
      ((cngSmoothed env p0 payload).filter_out.take cngOrder) (cngExc env p0 payload) }

/-- `cng_decode_frame`.  `bufOk` is the outcome of `ff_get_buffer`:
on failure the function returns the error after the per-frame state
update, emitting no frame; on success it emits the `frame_size`
samples `(int16_t)filter_out[i + order]`, copies the trailing `order`
samples of `filter_out` to its front (`memcpy`), and returns
`buf_size`. -/
def cng_decode_frame (env : CEnv) (p0 : CNGContext) (payload : List (Fin 256))
    (bufOk : Bool) : CNGContext × Option (List ℤ × ℕ) :=
  let p3 := cng_frame_update env p0 payload
  if bufOk then
    ({ p3 with
        filter_out := p3.filter_out.drop cngFrameSize ++ p3.filter_out.drop cngOrder },
     some ((p3.filter_out.drop cngOrder).map ctrunc, payload.length))
  else
    (p3, none)

/-- `cng_decode_flush`: sets `p->inited = 0` and nothing else. -/
def cng_decode_flush (p : CNGContext) : CNGContext := { p with inited := false }

/-- A sequence of decode calls, each given by its SID payload and the
outcome of its `ff_get_buffer` call; returns the final context and the
per-call results. -/
def runDecoder (env : CEnv) : CNGContext → List (List (Fin 256) × Bool) →
    CNGContext × List (Option (List ℤ × ℕ))
  | s, [] => (s, [])
  | s, pb :: rest =>
    let r := cng_decode_frame env s pb.1 pb.2
    let rr := runDecoder env r.1 rest
    (rr.1, r.2 :: rr.2)

/-- Environment used by concrete witnesses and counterexamples.  Their
decode traces only ever parse the SID byte `0`, where libm's
`pow(10, -0/10.0)` returns exactly `1`, so `pow10 := fun _ => 1` is the
true value at every point these traces use; the fields these theorems
inspect do not depend on `sqrtq` or `rng`. -/
def env0 : CEnv := ⟨fun _ => 1, fun _ => 0, fun _ => 0⟩

/-- State after one decode call on payload `[0]` from a fresh context. -/
def st1 : CNGContext := (cng_decode_frame env0 cng_decode_init [0] true).1

/-- State after a second decode call on payload `[0]`. -/
def st2 : CNGContext := (cng_decode_frame env0 st1 [0] true).1

/-- State after one decode call on payload `[0, 255]` (coefficient
byte 255) from a fresh context. -/
def stMax : CNGContext := (cng_decode_frame env0 cng_decode_init [0, 255] true).1

/-- `x` is a value representable by the SID coefficient encoding:
`(b - 127) / 128` for a byte `b ∈ [0, 255]` gives exactly this range. -/
def ReflOK (x : ℚ) : Prop := -(127 / 128) ≤ x ∧ x ≤ 1

/-- All live reflection-coefficient entries (current and target) of a
context are representable values. -/
def StateOK (p : CNGContext) : Prop :=
  ∀ i, i < cngOrder → ReflOK (p.refl_coef i) ∧ ReflOK (p.target_refl_coef i)

section ProjectionLemmas

variable (env : CEnv) (p : CNGContext) (l : List (Fin 256)) (b : Bool)

@[simp] lemma parse_nil : cngParsePacket env p [] = p := rfl

lemma parse_cons (b0 : Fin 256) (rest : List (Fin 256)) :
    cngParsePacket env p (b0 :: rest) =
      { p with
        target_energy := ctrunc (1081109975 * env.pow10 b0.val * 0.75)
        target_refl_coef := fun i =>
          if i < min rest.length cngOrder then (((rest.getD i 0).val : ℚ) - 127) / 128
          else if i < cngOrder then 0
          else p.target_refl_coef i } := rfl

@[simp] lemma parse_energy : (cngParsePacket env p l).energy = p.energy := by
  cases l <;> rfl

@[simp] lemma parse_refl_coef : (cngParsePacket env p l).refl_coef = p.refl_coef := by
  cases l <;> rfl

@[simp] lemma parse_inited : (cngParsePacket env p l).inited = p.inited := by
  cases l <;> rfl

@[simp] lemma parse_lpc : (cngParsePacket env p l).lpc_coef = p.lpc_coef := by
  cases l <;> rfl

@[simp] lemma parse_filter_out : (cngParsePacket env p l).filter_out = p.filter_out := by
  cases l <;> rfl

@[simp] lemma parse_excitation : (cngParsePacket env p l).excitation = p.excitation := by
  cases l <;> rfl

@[simp] lemma parse_lfgIndex : (cngParsePacket env p l).lfgIndex = p.lfgIndex := by
  cases l <;> rfl

@[simp] lemma smooth_inited : (cngSmooth p).inited = true := by
  unfold cngSmooth; split
  · next h => simpa using h
  · rfl

@[simp] lemma smooth_target_energy : (cngSmooth p).target_energy = p.target_energy := by
  unfold cngSmooth; split <;> rfl

@[simp] lemma smooth_target_refl : (cngSmooth p).target_refl_coef = p.target_refl_coef := by
  unfold cngSmooth; split <;> rfl

@[simp] lemma smooth_lfgIndex : (cngSmooth p).lfgIndex = p.lfgIndex := by
  unfold cngSmooth; split <;> rfl

@[simp] lemma smooth_filter_out : (cngSmooth p).filter_out = p.filter_out := by
  unfold cngSmooth; split <;> rfl

@[simp] lemma smooth_excitation : (cngSmooth p).excitation = p.excitation := by
  unfold cngSmooth; split <;> rfl

@[simp] lemma smooth_lpc : (cngSmooth p).lpc_coef = p.lpc_coef := by
  unfold cngSmooth; split <;> rfl

lemma smooth_energy_inited (h : p.inited = true) :
    (cngSmooth p).energy = cdiv2 p.energy + cdiv2 p.target_energy := by
  unfold cngSmooth; rw [h]; rfl

lemma smooth_energy_not_inited (h : p.inited = false) :
    (cngSmooth p).energy = p.target_energy := by
  unfold cngSmooth; rw [h]; rfl

lemma smooth_refl_inited (h : p.inited = true) :
    (cngSmooth p).refl_coef = fun i =>
      if i < cngOrder then 0.6 * p.refl_coef i + 0.4 * p.target_refl_coef i
      else p.refl_coef i := by
  unfold cngSmooth; rw [h]; rfl

lemma smooth_refl_not_inited (h : p.inited = false) :
    (cngSmooth p).refl_coef = fun i =>
      if i < cngOrder then p.target_refl_coef i else p.refl_coef i := by
  unfold cngSmooth; rw [h]; rfl

@[simp] lemma update_energy :
    (cng_frame_update env p l).energy = (cngSmoothed env p l).energy := rfl

@[simp] lemma update_refl :
    (cng_frame_update env p l).refl_coef = (cngSmoothed env p l).refl_coef := rfl

@[simp] lemma update_target_energy :
    (cng_frame_update env p l).target_energy = (cngParsePacket env p l).target_energy := by
  show (cngSmoothed env p l).target_energy = _
  unfold cngSmoothed; simp

@[simp] lemma update_target_refl :
    (cng_frame_update env p l).target_refl_coef
      = (cngParsePacket env p l).target_refl_coef := by
  show (cngSmoothed env p l).target_refl_coef = _
  unfold cngSmoothed; simp

@[simp] lemma update_inited : (cng_frame_update env p l).inited = true := by
  show (cngSmoothed env p l).inited = true
  unfold cngSmoothed; simp

@[simp] lemma update_lfgIndex :
    (cng_frame_update env p l).lfgIndex = p.lfgIndex + cngFrameSize := by
  show (cngSmoothed env p l).lfgIndex + cngFrameSize = _
  unfold cngSmoothed; simp

@[simp] lemma update_excitation :
    (cng_frame_update env p l).excitation = cngExc env p l := rfl

@[simp] lemma update_lpc :
    (cng_frame_update env p l).lpc_coef = cngLpc env p l := rfl

@[simp] lemma update_filter_out :
    (cng_frame_update env p l).filter_out
      = synthFilter cngOrder (cngLpc env p l)
          ((cngSmoothed env p l).filter_out.take cngOrder) (cngExc env p l) := rfl

@[simp] lemma smoothed_filter_out :
    (cngSmoothed env p l).filter_out = p.filter_out := by
  unfold cngSmoothed; simp

@[simp] lemma smoothed_lfgIndex : (cngSmoothed env p l).lfgIndex = p.lfgIndex := by
  unfold cngSmoothed; simp

@[simp] lemma decode_fst_energy :
    ((cng_decode_frame env p l b).1).energy = (cng_frame_update env p l).energy := by
  cases b <;> rfl

@[simp] lemma decode_fst_refl :
    ((cng_decode_frame env p l b).1).refl_coef = (cng_frame_update env p l).refl_coef := by
  cases b <;> rfl

@[simp] lemma decode_fst_target_energy :
    ((cng_decode_frame env p l b).1).target_energy
      = (cng_frame_update env p l).target_energy := by
  cases b <;> rfl

@[simp] lemma decode_fst_target_refl :
    ((cng_decode_frame env p l b).1).target_refl_coef
      = (cng_frame_update env p l).target_refl_coef := by
  cases b <;> rfl

@[simp] lemma decode_fst_inited : ((cng_decode_frame env p l b).1).inited = true := by
  cases b <;> simp [cng_decode_frame]

@[simp] lemma decode_fst_lpc :
    ((cng_decode_frame env p l b).1).lpc_coef = (cng_frame_update env p l).lpc_coef := by
  cases b <;> rfl

@[simp] lemma decode_fst_excitation :
    ((cng_decode_frame env p l b).1).excitation = (cng_frame_update env p l).excitation := by
  cases b <;> rfl

@[simp] lemma decode_fst_lfgIndex :
    ((cng_decode_frame env p l b).1).lfgIndex = (cng_frame_update env p l).lfgIndex := by
  cases b <;> rfl

lemma decode_false : cng_decode_frame env p l false = (cng_frame_update env p l, none) := rfl

lemma decode_true :
    cng_decode_frame env p l true =
      ({ cng_frame_update env p l with
          filter_out := (cng_frame_update env p l).filter_out.drop cngFrameSize
            ++ (cng_frame_update env p l).filter_out.drop cngOrder },
       some (((cng_frame_update env p l).filter_out.drop cngOrder).map ctrunc, l.length)) := rfl

end ProjectionLemmas

section HelperLemmas

variable (env : CEnv) (p : CNGContext) (l : List (Fin 256)) (b : Bool)

lemma stepUpLoop_correct (refl : ℕ → ℚ) (lpc0 buf0 : ℕ → ℚ) : ∀ m : ℕ,
    (∀ i, i < m → (stepUpLoop refl m lpc0 buf0).1 i = levinson refl m i) ∧
    (∀ i, i + 1 < m → (stepUpLoop refl m lpc0 buf0).2 i = levinson refl (m - 1) i) := by
  intro m
  induction m with
  | zero => exact ⟨fun i hi => absurd hi (Nat.not_lt_zero i), fun i hi => by omega⟩
  | succ m ih =>
    constructor
    · intro i hi
      show (if i = m then refl m
        else if i < m then (stepUpLoop refl m lpc0 buf0).1 i
            + refl m * (stepUpLoop refl m lpc0 buf0).1 (m - 1 - i)
        else (stepUpLoop refl m lpc0 buf0).2 i) = levinson refl (m + 1) i
      by_cases h : i = m
      · simp [levinson, h]
      · have hi' : i < m := by omega
        rw [if_neg h, if_pos hi', ih.1 i hi', ih.1 (m - 1 - i) (by omega)]
        rw [levinson, if_neg h, if_pos hi']
    · intro i hi
      show (stepUpLoop refl m lpc0 buf0).1 i = levinson refl (m + 1 - 1) i
      rw [ih.1 i (by omega)]
      norm_num

lemma synthFilter_shape (order : ℕ) (lpc : ℕ → ℚ) : ∀ exc hist : List ℚ,
    ∃ t : List ℚ, synthFilter order lpc hist exc = hist ++ t ∧ t.length = exc.length := by
  intro exc
  induction exc with
  | nil => exact fun hist => ⟨[], by simp [synthFilter], rfl⟩
  | cons e es ih =>
    intro hist
    obtain ⟨t, ht, hlen⟩ := ih (hist ++
      [e - (((List.range order).map fun k => lpc k * hist.getD (hist.length - 1 - k) 0).sum)])
    refine ⟨(e - (((List.range order).map fun k =>
        lpc k * hist.getD (hist.length - 1 - k) 0).sum)) :: t, ?_, ?_⟩
    · show synthFilter order lpc (hist ++
        [e - (((List.range order).map fun k => lpc k * hist.getD (hist.length - 1 - k) 0).sum)])
          es = _
      rw [ht, List.append_assoc]
      rfl
    · simp [hlen]

lemma synthFilter_length (order : ℕ) (lpc : ℕ → ℚ) (hist exc : List ℚ) :
    (synthFilter order lpc hist exc).length = hist.length + exc.length := by
  obtain ⟨t, ht, hlen⟩ := synthFilter_shape order lpc exc hist
  rw [ht, List.length_append, hlen]

lemma synthFilter_take (order : ℕ) (lpc : ℕ → ℚ) (hist exc : List ℚ) :
    (synthFilter order lpc hist exc).take hist.length = hist := by
  obtain ⟨t, ht, _⟩ := synthFilter_shape order lpc exc hist
  rw [ht, List.take_left]

lemma synthFilter_take' (order n : ℕ) (lpc : ℕ → ℚ) (hist exc : List ℚ)
    (h : hist.length = n) : (synthFilter order lpc hist exc).take n = hist := by
  rw [← h, synthFilter_take]

lemma cngExc_length : (cngExc env p l).length = cngFrameSize := by
  simp [cngExc]

lemma update_filter_out_length (h : cngOrder ≤ p.filter_out.length) :
    (cng_frame_update env p l).filter_out.length = cngOrder + cngFrameSize := by
  rw [update_filter_out, synthFilter_length, cngExc_length, smoothed_filter_out,
    List.length_take, min_eq_left h]

lemma update_filter_out_take (h : cngOrder ≤ p.filter_out.length) :
    (cng_frame_update env p l).filter_out.take cngOrder = p.filter_out.take cngOrder := by
  have hl : (p.filter_out.take cngOrder).length = cngOrder := by
    rw [List.length_take, min_eq_left h]
  rw [update_filter_out, smoothed_filter_out, synthFilter_take' _ _ _ _ _ hl]

end HelperLemmas

section RangeInvariant

lemma reflOK_zero : ReflOK 0 := by constructor <;> norm_num

lemma reflOK_byte (b : Fin 256) : ReflOK (((b.val : ℚ) - 127) / 128) := by
  have h1 : (b.val : ℚ) ≤ 255 := by
    exact_mod_cast Nat.le_of_lt_succ b.isLt
  have h2 : (0 : ℚ) ≤ (b.val : ℚ) := by positivity
  constructor <;> [linarith; linarith]

lemma reflOK_mix {a c : ℚ} (ha : ReflOK a) (hc : ReflOK c) : ReflOK (0.6 * a + 0.4 * c) := by
  obtain ⟨ha1, ha2⟩ := ha
  obtain ⟨hc1, hc2⟩ := hc
  constructor <;> [linarith; linarith]

lemma stateOK_init : StateOK cng_decode_init := by
  intro i _
  exact ⟨reflOK_zero, reflOK_zero⟩

lemma stateOK_parse (env : CEnv) (p : CNGContext) (l : List (Fin 256)) (h : StateOK p) :
    StateOK (cngParsePacket env p l) := by
  cases l with
  | nil => simpa using h
  | cons b0 rest =>
    intro i hi
    rw [parse_cons]
    refine ⟨(h i hi).1, ?_⟩
    show ReflOK (if i < min rest.length cngOrder then (((rest.getD i 0).val : ℚ) - 127) / 128
      else if i < cngOrder then 0 else p.target_refl_coef i)
    by_cases h1 : i < min rest.length cngOrder
    · rw [if_pos h1]
      exact reflOK_byte _
    · rw [if_neg h1, if_pos hi]
      exact reflOK_zero

lemma stateOK_smooth (p : CNGContext) (h : StateOK p) : StateOK (cngSmooth p) := by
  intro i hi
  refine ⟨?_, by simpa using (h i hi).2⟩
  cases hb : p.inited with
  | true =>
    rw [smooth_refl_inited p hb]
    simp only [if_pos hi]
    exact reflOK_mix (h i hi).1 (h i hi).2
  | false =>
    rw [smooth_refl_not_inited p hb]
    simp only [if_pos hi]
    exact (h i hi).2

lemma stateOK_decode (env : CEnv) (p : CNGContext) (l : List (Fin 256)) (b : Bool)
    (h : StateOK p) : StateOK ((cng_decode_frame env p l b).1) := by
  intro i hi
  have h2 : StateOK (cngSmoothed env p l) :=
    stateOK_smooth _ (stateOK_parse env p l h)
  constructor
  · rw [show ((cng_decode_frame env p l b).1).refl_coef i
        = (cngSmoothed env p l).refl_coef i by simp]
    exact (h2 i hi).1
  · rw [show ((cng_decode_frame env p l b).1).target_refl_coef i
        = (cngSmoothed env p l).target_refl_coef i by
      simp [cngSmoothed]]
    exact (h2 i hi).2

lemma stateOK_run (env : CEnv) :
    ∀ (inputs : List (List (Fin 256) × Bool)) (p : CNGContext), StateOK p →
      StateOK ((runDecoder env p inputs).1) := by
  intro inputs
  induction inputs with
  | nil => exact fun p h => h
  | cons pb rest ih =>
    intro p h
    exact ih _ (stateOK_decode env p pb.1 pb.2 h)

end RangeInvariant

/-- Context with `inited` already set, used to witness the smoothing-path
theorems. -/
def stInited : CNGContext := { cng_decode_init with inited := true }

/-- C1, counterexample.  The claim says the new energy is
`0.5*energy + 0.5*target_energy`, but `energy` and `target_energy` are
C `int`s and the code computes `energy/2 + target_energy/2` with
truncating integer division.  Feeding the SID payload `[0]` twice from
a fresh decoder (byte 0, where `pow(10, -0/10.0) = 1` exactly, so
`env0` is faithful): the first call snaps `energy = 810832481` (odd),
the second call produces `405416240 + 405416240 = 810832480`, while
the claimed blend gives `810832481`. -/
theorem C1_counterexample :
    st1.inited = true ∧ st1.energy = 810832481 ∧ st2.target_energy = 810832481 ∧
    st2.energy = 810832480 ∧
    (st2.energy : ℚ) ≠ 0.5 * (st1.energy : ℚ) + 0.5 * (st2.target_energy : ℚ) := by
  have h0 : cng_decode_init.inited = false := rfl
  have hparse : ∀ p : CNGContext, (cngParsePacket env0 p [0]).target_energy = 810832481 := by
    intro p
    rw [parse_cons]
    show ctrunc (1081109975 * env0.pow10 (0 : Fin 256).val * 0.75) = _
    norm_num [ctrunc, env0]
  have h1 : st1.energy = 810832481 := by
    rw [st1, decode_fst_energy, update_energy]
    unfold cngSmoothed
    rw [smooth_energy_not_inited _ (by simp [h0]), hparse]
  have hinit1 : st1.inited = true := by simp [st1]
  have h2 : st2.target_energy = 810832481 := by
    rw [st2, decode_fst_target_energy, update_target_energy, hparse]
  have h3 : st2.energy = 810832480 := by
    rw [st2, decode_fst_energy, update_energy]
    unfold cngSmoothed
    rw [smooth_energy_inited _ (by simp [hinit1]), parse_energy, hparse, h1]
    decide
  refine ⟨hinit1, h1, h2, h3, ?_⟩
  rw [h1, h2, h3]
  norm_num

/-- C1 (amended): for every decode call on a context with
`initialized == true`, the new energy equals
`energy/2 + target_energy/2` computed with C truncating integer
division (not the exact blend `0.5*energy + 0.5*target_energy`), and
for every `i < order` the new `reflection_coef[i]` equals
`0.6*reflection_coef[i] + 0.4*target_reflection_coef[i]` (the targets
being the ones current during the call, i.e. after packet parsing). -/
theorem C1_amended (env : CEnv) (p0 : CNGContext) (payload : List (Fin 256)) (bufOk : Bool)
    (h : p0.inited = true) :
    ((cng_decode_frame env p0 payload bufOk).1.energy
      = cdiv2 p0.energy + cdiv2 ((cng_decode_frame env p0 payload bufOk).1.target_energy))
    ∧ ∀ i, i < cngOrder →
        (cng_decode_frame env p0 payload bufOk).1.refl_coef i
          = 0.6 * p0.refl_coef i
            + 0.4 * ((cng_decode_frame env p0 payload bufOk).1.target_refl_coef i) := by
  constructor
  · rw [decode_fst_energy, update_energy]
    unfold cngSmoothed
    rw [smooth_energy_inited _ (by simp [h]), parse_energy,
      decode_fst_target_energy, update_target_energy]
  · intro i hi
    rw [decode_fst_refl, update_refl]
    unfold cngSmoothed
    rw [smooth_refl_inited _ (by simp [h])]
    simp only [if_pos hi, parse_refl_coef, decode_fst_target_refl, update_target_refl]

/-- Witness for `C1_amended` at a concrete initialised context. -/
theorem C1_amended_witness :
    (cng_decode_frame env0 stInited [] true).1.energy
      = cdiv2 stInited.energy
        + cdiv2 ((cng_decode_frame env0 stInited [] true).1.target_energy) :=
  (C1_amended env0 stInited [] true rfl).1

/-- C2, counterexample.  The claim says `target_energy` is set to
`1081109975 * 10^(-byte0/10) * 0.75`; the code stores the value in the
C `int` field `target_energy`, truncating it.  At byte 0 the exact
value is `810832481.25` (here `env0.pow10 0 = 1` is exactly libm's
`pow(10, -0/10.0)`), but the stored field holds `810832481`. -/
theorem C2_counterexample :
    st1.target_energy = 810832481 ∧
    (st1.target_energy : ℚ) ≠ 1081109975 * env0.pow10 (0 : Fin 256).val * 0.75 := by
  have h1 : st1.target_energy = 810832481 := by
    rw [st1, decode_fst_target_energy, update_target_energy, parse_cons]
    show ctrunc (1081109975 * env0.pow10 (0 : Fin 256).val * 0.75) = _
    norm_num [ctrunc, env0]
  refine ⟨h1, ?_⟩
  rw [h1]
  norm_num [env0]

/-- C2 (amended): for every non-empty payload `b0 :: rest`,
`target_energy` is set to `1081109975 * 10^(-b0/10) * 0.75` truncated
toward zero to an `int`; for `i < min (rest.length) order` the target
coefficient `i` is `(payload[1+i] - 127) / 128`; the remaining slots
up to `order` are zero (bytes beyond index `order` are ignored, the
formulas depending only on the first `order` coefficient bytes); and a
decode call whose buffer acquisition succeeds produces a frame for any
payload length (no payload-length error exists). -/
theorem C2_amended (env : CEnv) (p0 : CNGContext) (b0 : Fin 256) (rest : List (Fin 256))
    (bufOk : Bool) :
    ((cng_decode_frame env p0 (b0 :: rest) bufOk).1.target_energy
        = ctrunc (1081109975 * env.pow10 b0.val * 0.75))
    ∧ (∀ i, i < min rest.length cngOrder →
        (cng_decode_frame env p0 (b0 :: rest) bufOk).1.target_refl_coef i
          = (((rest.getD i 0).val : ℚ) - 127) / 128)
    ∧ (∀ i, min rest.length cngOrder ≤ i → i < cngOrder →
        (cng_decode_frame env p0 (b0 :: rest) bufOk).1.target_refl_coef i = 0)
    ∧ ((cng_decode_frame env p0 (b0 :: rest) true).2).isSome = true := by
  refine ⟨?_, ?_, ?_, rfl⟩
  · rw [decode_fst_target_energy, update_target_energy, parse_cons]
  · intro i hi
    rw [decode_fst_target_refl, update_target_refl, parse_cons]
    show (if i < min rest.length cngOrder then (((rest.getD i 0).val : ℚ) - 127) / 128
      else if i < cngOrder then 0 else p0.target_refl_coef i) = _
    rw [if_pos hi]
  · intro i hi1 hi2
    rw [decode_fst_target_refl, update_target_refl, parse_cons]
    show (if i < min rest.length cngOrder then (((rest.getD i 0).val : ℚ) - 127) / 128
      else if i < cngOrder then 0 else p0.target_refl_coef i) = _
    rw [if_neg (by omega), if_pos hi2]

/-- Witness for `C2_amended`: payload `[0, 255]`, coefficient slot 0. -/
theorem C2_amended_witness :
    (cng_decode_frame env0 cng_decode_init [0, 255] true).1.target_refl_coef 0
      = (((([255] : List (Fin 256)).getD 0 0).val : ℚ) - 127) / 128 :=
  (C2_amended env0 cng_decode_init 0 [255] true).2.1 0 (by decide)

/-- C3: the ping-pong buffer implementation of `make_lpc_coefs` is
bit-for-bit the canonical step-up (Levinson) recursion on every live
index, for every model order, independently of the stale contents of
the output buffer (`lpc0`) and of the uninitialised scratch buffer
(`buf0`). -/
theorem C3_make_lpc_coefs_levinson (refl : ℕ → ℚ) (order : ℕ) (lpc0 buf0 : ℕ → ℚ)
    (i : ℕ) (hi : i < order) :
    make_lpc_coefs refl order lpc0 buf0 i = levinson refl order i :=
  (stepUpLoop_correct refl lpc0 buf0 order).1 i hi

/-- Witness for `C3_make_lpc_coefs_levinson` at order 2 with junk in
both initial buffers. -/
theorem C3_make_lpc_coefs_levinson_witness :
    make_lpc_coefs (fun j => (j : ℚ) + 1) 2 (fun _ => 5) (fun _ => 7) 1
      = levinson (fun j => (j : ℚ) + 1) 2 1 :=
  C3_make_lpc_coefs_levinson (fun j => (j : ℚ) + 1) 2 (fun _ => 5) (fun _ => 7) 1
    (by omega)

/-- C4: for every decode call the excitation buffer equals
`scaling * r_k` for the `frame_size` successive generator draws
`r_k = (av_lfg_get & 0xffff) - 0x8000`, with
`scaling = sqrt(e * energy / 1081109975)` and
`e = Π_{i<order} (1 - refl_coef[i]²)` computed from the freshly
smoothed coefficients and energy (the fields of the post-call state);
and every masked, re-centred draw lies in `[-32768, 32767]`. -/
theorem C4_excitation (env : CEnv) (p0 : CNGContext) (payload : List (Fin 256))
    (bufOk : Bool) :
    ((cng_decode_frame env p0 payload bufOk).1.excitation
      = (List.range cngFrameSize).map fun k =>
          env.sqrtq
            ((((List.range cngOrder).map fun i =>
                1 - (cng_decode_frame env p0 payload bufOk).1.refl_coef i
                  * (cng_decode_frame env p0 payload bufOk).1.refl_coef i).prod)
              * ((cng_decode_frame env p0 payload bufOk).1.energy : ℚ) / 1081109975)
          * (((env.rng (p0.lfgIndex + k) % 65536 : ℕ) : ℚ) - 32768))
    ∧ ∀ k : ℕ, (-32768 : ℤ) ≤ ((env.rng k % 65536 : ℕ) : ℤ) - 32768
        ∧ ((env.rng k % 65536 : ℕ) : ℤ) - 32768 ≤ 32767 := by
  constructor
  · rw [decode_fst_excitation, update_excitation]
    unfold cngExc cngScaling
    simp only [decode_fst_refl, update_refl, decode_fst_energy, update_energy,
      smoothed_lfgIndex]
  · intro k
    have h : env.rng k % 65536 < 65536 := Nat.mod_lt _ (by norm_num)
    omega

/-- C5: the synthesis-history invariant.  `cng_decode_init` zero-fills
`filter_out`; a successful decode call emits exactly the `int16_t`
casts of the synthesis region `filter_out[order..order+frame_size)`;
and after the trailing `memcpy`, the leading `order` entries of
`filter_out` — the history the next call's synthesis filter starts
from — equal the trailing `order` samples of the frame's synthesis
output. -/
theorem C5_history (env : CEnv) (p0 : CNGContext) (payload : List (Fin 256))
    (hl : p0.filter_out.length = cngFrameSize + cngOrder) :
    cng_decode_init.filter_out = List.replicate (cngFrameSize + cngOrder) 0
    ∧ (cng_decode_frame env p0 payload true).2
        = some (((cng_frame_update env p0 payload).filter_out.drop cngOrder).map ctrunc,
            payload.length)
    ∧ (cng_decode_frame env p0 payload true).1.filter_out.take cngOrder
        = ((cng_frame_update env p0 payload).filter_out.drop cngOrder).drop
            (cngFrameSize - cngOrder) := by
  refine ⟨rfl, rfl, ?_⟩
  have hfl : (cng_frame_update env p0 payload).filter_out.length = cngOrder + cngFrameSize :=
    update_filter_out_length env p0 payload
      (by rw [hl]; norm_num [cngOrder, cngFrameSize])
  have h1 : ((cng_frame_update env p0 payload).filter_out.drop cngFrameSize).length
      = cngOrder := by
    rw [List.length_drop, hfl]
    norm_num [cngOrder, cngFrameSize]
  have h2 : (cng_decode_frame env p0 payload true).1.filter_out
      = (cng_frame_update env p0 payload).filter_out.drop cngFrameSize
        ++ (cng_frame_update env p0 payload).filter_out.drop cngOrder := rfl
  rw [h2, List.drop_drop]
  have h3 : cngOrder + (cngFrameSize - cngOrder) = cngFrameSize := by
    norm_num [cngOrder, cngFrameSize]
  rw [h3, List.take_left' h1]

/-- Witness for `C5_history` at a fresh context with empty payload. -/
theorem C5_history_witness :
    (cng_decode_frame env0 cng_decode_init [] true).1.filter_out.take cngOrder
      = ((cng_frame_update env0 cng_decode_init []).filter_out.drop cngOrder).drop
          (cngFrameSize - cngOrder) :=
  (C5_history env0 cng_decode_init [] (by simp [cng_decode_init])).2.2

/-- C6: on the first processed frame (`initialized == false`) the
energy is snapped exactly to the target energy, every live reflection
coefficient is copied exactly from the target coefficients (no
smoothing blend), and `initialized` is set. -/
theorem C6_first_frame (env : CEnv) (p0 : CNGContext) (payload : List (Fin 256))
    (bufOk : Bool) (h : p0.inited = false) :
    ((cng_decode_frame env p0 payload bufOk).1.energy
        = (cng_decode_frame env p0 payload bufOk).1.target_energy)
    ∧ (∀ i, i < cngOrder →
        (cng_decode_frame env p0 payload bufOk).1.refl_coef i
          = (cng_decode_frame env p0 payload bufOk).1.target_refl_coef i)
    ∧ (cng_decode_frame env p0 payload bufOk).1.inited = true := by
  refine ⟨?_, ?_, by simp⟩
  · rw [decode_fst_energy, update_energy]
    unfold cngSmoothed
    rw [smooth_energy_not_inited _ (by simp [h]),
      decode_fst_target_energy, update_target_energy]
  · intro i hi
    rw [decode_fst_refl, update_refl]
    unfold cngSmoothed
    rw [smooth_refl_not_inited _ (by simp [h])]
    simp only [if_pos hi, decode_fst_target_refl, update_target_refl]

/-- Witness for `C6_first_frame` at a fresh context. -/
theorem C6_first_frame_witness :
    (cng_decode_frame env0 cng_decode_init [0] true).1.energy
      = (cng_decode_frame env0 cng_decode_init [0] true).1.target_energy :=
  (C6_first_frame env0 cng_decode_init [0] true rfl).1

/-- C7: determinism.  Two freshly set-up decoder instances (both are
`cng_decode_init`: the generator is seeded with the fixed value 0, so
both share the same draw stream and counter, and nothing reseeds it)
fed identical payload sequences produce identical results — final
states and the full sequences of emitted frames. -/
theorem C7_determinism (env : CEnv) (ps1 ps2 : List (List (Fin 256))) (h : ps1 = ps2) :
    runDecoder env cng_decode_init (ps1.map fun p => (p, true))
      = runDecoder env cng_decode_init (ps2.map fun p => (p, true)) := by
  rw [h]

/-- Witness for `C7_determinism` on a concrete payload sequence. -/
theorem C7_determinism_witness :
    runDecoder env0 cng_decode_init ([[0]].map fun p => (p, true))
      = runDecoder env0 cng_decode_init ([[0]].map fun p => (p, true)) :=
  C7_determinism env0 [[0]] [[0]] rfl

/-- C8, counterexample.  The claim says every `reflection_coef` entry
of every reachable state lies strictly inside `(-1, 1)`, but the
coefficient byte 255 decodes to `(255 - 127) / 128 = 1` exactly, and
the first frame snaps `refl_coef` to the target: after one decode call
on payload `[0, 255]` the entry equals 1, not strictly below 1. -/
theorem C8_counterexample : stMax.refl_coef 0 = 1 ∧ ¬ (stMax.refl_coef 0 < 1) := by
  have h0 : cng_decode_init.inited = false := rfl
  have h : stMax.refl_coef 0 = 1 := by
    rw [stMax, decode_fst_refl, update_refl]
    unfold cngSmoothed
    rw [smooth_refl_not_inited _ (by simp [h0])]
    show (if 0 < cngOrder
      then (cngParsePacket env0 cng_decode_init [0, 255]).target_refl_coef 0
      else (cngParsePacket env0 cng_decode_init [0, 255]).refl_coef 0) = 1
    rw [if_pos (by norm_num [cngOrder]), parse_cons]
    show (if 0 < min ([(255 : Fin 256)].length) cngOrder
      then ((([(255 : Fin 256)].getD 0 0).val : ℚ) - 127) / 128
      else if 0 < cngOrder then 0 else cng_decode_init.target_refl_coef 0) = 1
    rw [if_pos (by norm_num [cngOrder])]
    norm_num [show ((255 : Fin 256)).val = 255 from rfl]
  exact ⟨h, by rw [h]; exact lt_irrefl 1⟩

/-- C8 (amended): on every state reachable by any sequence of decode
calls from a fresh context, every live `reflection_coef` entry lies in
the closed range `[-127/128, 1]` — the exact range of the byte
encoding `(b - 127)/128`, `b ∈ [0, 255]`, which is preserved by the
smoothing blend; the upper endpoint 1 is attained (see
`C8_counterexample`), so the claimed open range `(-1, 1)` is corrected
to `[-127/128, 1]`. -/
theorem C8_range (env : CEnv) (inputs : List (List (Fin 256) × Bool)) (i : ℕ)
    (hi : i < cngOrder) :
    -(127 / 128 : ℚ) ≤ (runDecoder env cng_decode_init inputs).1.refl_coef i
    ∧ (runDecoder env cng_decode_init inputs).1.refl_coef i ≤ 1 :=
  (stateOK_run env inputs cng_decode_init stateOK_init i hi).1

/-- Witness for `C8_range` after the run that attains the endpoint. -/
theorem C8_range_witness :
    -(127 / 128 : ℚ) ≤ (runDecoder env0 cng_decode_init [([0, 255], true)]).1.refl_coef 0
    ∧ (runDecoder env0 cng_decode_init [([0, 255], true)]).1.refl_coef 0 ≤ 1 :=
  C8_range env0 [([0, 255], true)] 0 (by norm_num [cngOrder])

/-- C9: `cng_decode_flush` sets `inited = false`, leaves
`filter_out` (the synthesis filter's carried-over memory) untouched,
and modifies no other field: the result is exactly the input context
with `inited := false`. -/
theorem C9_flush (p : CNGContext) :
    (cng_decode_flush p).inited = false
    ∧ (cng_decode_flush p).filter_out = p.filter_out
    ∧ cng_decode_flush p = { p with inited := false } :=
  ⟨rfl, rfl, rfl⟩

/-- C10: when `ff_get_buffer` fails the call returns the error with no
frame emitted, but the per-frame state update has already happened:
the failing call's state is exactly `cng_frame_update` — same
smoothed energy and coefficients, filter coefficients, generator
position and excitation as a successful call — and its `filter_out`
scratch region has been written by the synthesis filter, while its
leading `order` history entries still equal the previous frame's
carry-over (`p0`'s), because the carry-over `memcpy` runs only after a
successful buffer acquisition. -/
theorem C10_get_buffer_failure (env : CEnv) (p0 : CNGContext) (payload : List (Fin 256))
    (h : cngOrder ≤ p0.filter_out.length) :
    (cng_decode_frame env p0 payload false).2 = none
    ∧ (cng_decode_frame env p0 payload false).1 = cng_frame_update env p0 payload
    ∧ (cng_decode_frame env p0 payload false).1.energy
        = (cng_decode_frame env p0 payload true).1.energy
    ∧ (cng_decode_frame env p0 payload false).1.refl_coef
        = (cng_decode_frame env p0 payload true).1.refl_coef
    ∧ (cng_decode_frame env p0 payload false).1.lpc_coef
        = (cng_decode_frame env p0 payload true).1.lpc_coef
    ∧ (cng_decode_frame env p0 payload false).1.lfgIndex = p0.lfgIndex + cngFrameSize
    ∧ (cng_decode_frame env p0 payload false).1.excitation
        = (cng_decode_frame env p0 payload true).1.excitation
    ∧ (cng_decode_frame env p0 payload false).1.filter_out
        = synthFilter cngOrder ((cng_decode_frame env p0 payload false).1.lpc_coef)
            (p0.filter_out.take cngOrder)
            ((cng_decode_frame env p0 payload false).1.excitation)
    ∧ (cng_decode_frame env p0 payload false).1.filter_out.take cngOrder
        = p0.filter_out.take cngOrder := by
  refine ⟨rfl, rfl, by simp, by simp, by simp, by simp, by simp, ?_, ?_⟩
  · show (cng_frame_update env p0 payload).filter_out = _
    rw [update_filter_out, smoothed_filter_out]
    simp only [decode_fst_lpc, update_lpc, decode_fst_excitation, update_excitation]
  · show (cng_frame_update env p0 payload).filter_out.take cngOrder = _
    exact update_filter_out_take env p0 payload h

/-- Witness for `C10_get_buffer_failure` at a fresh context. -/
theorem C10_get_buffer_failure_witness :
    (cng_decode_frame env0 cng_decode_init [] false).2 = none :=
  (C10_get_buffer_failure env0 cng_decode_init []
    (by simp [cng_decode_init, cngOrder, cngFrameSize])).1

end CNG
